import Mathlib

/-!
Verification development for the Calleroo backend_v2 conversation engine
(`backend_v2/agents/specs.py`, `backend_v2/engine/planner.py`,
`backend_v2/engine/extract.py`, `backend_v2/app/conversation_v2.py`,
`backend_v2/app/main.py`).

Python slot values (`Dict[str, Any]`) are modelled by the inductive `Value`
(None / str / int / bool — the value shapes the engine actually stores), and
Python dicts by association lists with first-match lookup.  Dict update
`{**a, **b}` is modelled up to key order by `pyDictMerge`, whose lookup and
key-set semantics are proved below.
-/

set_option maxRecDepth 4000

/-- A Python value as stored in a slot dict: None, str, int or bool. -/
inductive Value where
  | none : Value
  | str (s : String) : Value
  | int (n : Int) : Value
  | bool (b : Bool) : Value
deriving DecidableEq, Repr

/-- A Python dict of slot values, modelled as an association list. -/
abbrev SlotStore := List (String × Value)

/-- Python `d.get(k)`: first binding of `k`, if any. -/
def dictGet (d : SlotStore) (k : String) : Option Value :=
  (d.find? (fun kv => kv.1 = k)).map (fun kv => kv.2)

/-- Python `k in d`. -/
def dictContains (d : SlotStore) (k : String) : Bool :=
  (d.find? (fun kv => kv.1 = k)).isSome

/-- Python `{**a, **b}` (`b` wins on key collision), up to key order. -/
def pyDictMerge (a b : SlotStore) : SlotStore :=
  a.filter (fun kv => !(dictContains b kv.1)) ++ b

/-- Python `str(v)`. -/
def pyStr : Value → String
  | Value.none => "None"
  | Value.str s => s
  | Value.int n => toString n
  | Value.bool true => "True"
  | Value.bool false => "False"

/-- Python truthiness of a slot value (`bool(v)`). -/
def pyTruthy : Value → Bool
  | Value.none => false
  | Value.str s => !(s == "")
  | Value.int n => !(n == 0)
  | Value.bool b => b

/-- Python `needle in hay` on lists of characters (contiguous substring). -/
def listContainsSub (needle : List Char) : List Char → Bool
  | [] => needle.isEmpty
  | c :: t => needle.isPrefixOf (c :: t) || listContainsSub needle t

/-- Python `needle in hay` for strings. -/
def strContainsSub (hay needle : String) : Bool :=
  listContainsSub needle.toList hay.toList

/-- The whitespace characters stripped by Python `str.strip()` (ASCII set). -/
def isPySpace (c : Char) : Bool :=
  c = ' ' || c = '\t' || c = '\n' || c = '\r' || c = '\x0b' || c = '\x0c'

/-- Python `s.strip()`. -/
def pyStrip (s : String) : String :=
  String.mk (((s.toList.dropWhile isPySpace).reverse.dropWhile isPySpace).reverse)

/-- ASCII lower-casing of one character (`str.lower()` characterwise). -/
def pyLowerChar (c : Char) : Char :=
  if 'A' ≤ c ∧ c ≤ 'Z' then Char.ofNat (c.toNat + 32) else c

/-- Python `s.lower()`. -/
def pyLower (s : String) : String :=
  String.mk (s.toList.map pyLowerChar)

/-- Python `s.startswith(p)`. -/
def pyStartsWith (s p : String) : Bool :=
  p.toList.isPrefixOf s.toList

/-- Python `s[n:]` on a string of characters. -/
def pyDropChars (s : String) (n : Nat) : String :=
  String.mk (s.toList.drop n)

-- ===========================================================================
-- agents/specs.py
-- ===========================================================================

/-- `InputType` from `agents/specs.py`. -/
inductive InputType where
  | TEXT | PHONE | DATE | TIME | NUMBER | CHOICE | YES_NO
deriving DecidableEq, Repr

/-- `InputType(...).value`. -/
def InputType.value : InputType → String
  | .TEXT => "TEXT"
  | .PHONE => "PHONE"
  | .DATE => "DATE"
  | .TIME => "TIME"
  | .NUMBER => "NUMBER"
  | .CHOICE => "CHOICE"
  | .YES_NO => "YES_NO"

/-- `PhoneSource` from `agents/specs.py`. -/
inductive PhoneSource where
  | PLACE | DIRECT_SLOT
deriving DecidableEq, Repr

def PhoneSource.value : PhoneSource → String
  | .PLACE => "PLACE"
  | .DIRECT_SLOT => "DIRECT_SLOT"

/-- `Choice` dataclass from `agents/specs.py`. -/
structure SpecChoice where
  label : String
  value : String
deriving DecidableEq, Repr

/-- `SlotSpec` dataclass from `agents/specs.py` (the `validators`,
`normalizers` and `description` fields are configuration unused by any
embedded operation and are omitted). -/
structure SlotSpec where
  name : String
  required : Bool
  input_type : InputType
  prompt : String
  choices : Option (List SpecChoice) := Option.none
deriving DecidableEq, Repr

/-- `SlotSpec.get_quick_replies`. -/
def SlotSpec.get_quick_replies (s : SlotSpec) : Option (List (String × String)) :=
  match s.input_type, s.choices with
  | InputType.CHOICE, some cs =>
      if cs.isEmpty then Option.none
      else some (cs.map (fun c => (c.label, c.value)))
  | InputType.YES_NO, _ => some [("Yes", "YES"), ("No", "NO")]
  | _, _ => Option.none

/-- `AgentSpec` dataclass from `agents/specs.py` (phone-flow and call-brief
template fields are configuration unused by the embedded conversation
operations and are omitted). -/
structure AgentSpec where
  agent_type : String
  title : String
  description : String
  slots_in_order : List SlotSpec
  confirm_title : String
  confirm_lines : List String
  phone_source : PhoneSource
  direct_phone_slot : Option String := Option.none
  place_query_slot : Option String := Option.none
  place_area_slot : Option String := Option.none
deriving DecidableEq, Repr

/-- `AgentSpec.get_slot_by_name`. -/
def AgentSpec.get_slot_by_name (spec : AgentSpec) (name : String) : Option SlotSpec :=
  spec.slots_in_order.find? (fun s => s.name = name)

/-- `SICK_CALLER_SPEC` from `agents/specs.py`. -/
def SICK_CALLER_SPEC : AgentSpec where
  agent_type := "SICK_CALLER"
  title := "Call in Sick"
  description := "Notify your workplace that you are unwell"
  slots_in_order := [
    { name := "employer_name", required := true, input_type := InputType.TEXT,
      prompt := "Who should I call to notify? (e.g., your manager's name or company name)" },
    { name := "employer_phone", required := true, input_type := InputType.PHONE,
      prompt := "What's their phone number?" },
    { name := "caller_name", required := true, input_type := InputType.TEXT,
      prompt := "What name should I give them? (your name)" },
    { name := "shift_date", required := true, input_type := InputType.DATE,
      prompt := "When is your shift?" },
    { name := "shift_start_time", required := true, input_type := InputType.TIME,
      prompt := "What time does your shift start?" },
    { name := "reason_category", required := true, input_type := InputType.CHOICE,
      prompt := "What's the reason for calling in?",
      choices := some [
        { label := "I'm sick", value := "SICK" },
        { label := "Caring for someone", value := "CARER" },
        { label := "Mental health day", value := "MENTAL_HEALTH" },
        { label := "Medical appointment", value := "MEDICAL_APPOINTMENT" }] },
    { name := "expected_return_date", required := false, input_type := InputType.DATE,
      prompt := "When do you expect to return? (optional)" },
    { name := "note_for_team", required := false, input_type := InputType.TEXT,
      prompt := "Any message for your team? (optional)" }]
  confirm_title := "Call In Sick"
  confirm_lines := [
    "Calling: {employer_name}",
    "Phone: {employer_phone}",
    "Your name: {caller_name}",
    "Shift: {shift_date} at {shift_start_time}",
    "Reason: {reason_category}"]
  phone_source := PhoneSource.DIRECT_SLOT
  direct_phone_slot := some "employer_phone"

/-- `STOCK_CHECKER_SPEC` from `agents/specs.py`. -/
def STOCK_CHECKER_SPEC : AgentSpec where
  agent_type := "STOCK_CHECKER"
  title := "Stock Check"
  description := "Check product availability at retailers"
  slots_in_order := [
    { name := "retailer_name", required := true, input_type := InputType.TEXT,
      prompt := "Which retailer should I call?" },
    { name := "product_name", required := true, input_type := InputType.TEXT,
      prompt := "What product are you looking for?" },
    { name := "quantity", required := true, input_type := InputType.NUMBER,
      prompt := "How many do you need?" },
    { name := "store_location", required := true, input_type := InputType.TEXT,
      prompt := "Which suburb or area should I search in?" },
    { name := "brand", required := false, input_type := InputType.TEXT,
      prompt := "Any specific brand? (optional)" },
    { name := "model", required := false, input_type := InputType.TEXT,
      prompt := "Any specific model? (optional)" },
    { name := "variant", required := false, input_type := InputType.TEXT,
      prompt := "Any specific variant (size, color)? (optional)" }]
  confirm_title := "Check Stock"
  confirm_lines := [
    "Retailer: {retailer_name}",
    "Product: {product_name}",
    "Quantity: {quantity}",
    "Location: {store_location}"]
  phone_source := PhoneSource.PLACE
  place_query_slot := some "retailer_name"
  place_area_slot := some "store_location"

/-- `RESTAURANT_RESERVATION_SPEC` from `agents/specs.py`. -/
def RESTAURANT_RESERVATION_SPEC : AgentSpec where
  agent_type := "RESTAURANT_RESERVATION"
  title := "Book Restaurant"
  description := "Book a table at a restaurant"
  slots_in_order := [
    { name := "restaurant_name", required := true, input_type := InputType.TEXT,
      prompt := "Which restaurant would you like to book?" },
    { name := "party_size", required := true, input_type := InputType.NUMBER,
      prompt := "How many people?" },
    { name := "date", required := true, input_type := InputType.DATE,
      prompt := "What date would you like to book for?" },
    { name := "time", required := true, input_type := InputType.TIME,
      prompt := "What time would you prefer?" },
    { name := "suburb_or_area", required := false, input_type := InputType.TEXT,
      prompt := "Which suburb or area? (optional if restaurant name is unique)" },
    { name := "share_contact", required := false, input_type := InputType.YES_NO,
      prompt := "Should I share your contact details with the restaurant?" }]
  confirm_title := "Book Restaurant"
  confirm_lines := [
    "Restaurant: {restaurant_name}",
    "Party size: {party_size} people",
    "Date: {date}",
    "Time: {time}"]
  phone_source := PhoneSource.PLACE
  place_query_slot := some "restaurant_name"
  place_area_slot := some "suburb_or_area"

/-- `CANCEL_APPOINTMENT_SPEC` from `agents/specs.py`. -/
def CANCEL_APPOINTMENT_SPEC : AgentSpec where
  agent_type := "CANCEL_APPOINTMENT"
  title := "Cancel Appointment"
  description := "Cancel an existing booking"
  slots_in_order := [
    { name := "business_name", required := true, input_type := InputType.TEXT,
      prompt := "What's the name of the business where you have the appointment?" },
    { name := "appointment_day", required := true, input_type := InputType.DATE,
      prompt := "What day is your appointment?" },
    { name := "appointment_time", required := true, input_type := InputType.TIME,
      prompt := "What time is the appointment?" },
    { name := "customer_name", required := true, input_type := InputType.TEXT,
      prompt := "What name is the booking under?" },
    { name := "business_location", required := false, input_type := InputType.TEXT,
      prompt := "Which location/branch? (optional if only one location)" },
    { name := "cancel_reason", required := false, input_type := InputType.TEXT,
      prompt := "Any reason to provide? (optional)" },
    { name := "reschedule_intent", required := false, input_type := InputType.YES_NO,
      prompt := "Would you like to reschedule?" }]
  confirm_title := "Cancel Appointment"
  confirm_lines := [
    "Business: {business_name}",
    "Appointment: {appointment_day} at {appointment_time}",
    "Name on booking: {customer_name}"]
  phone_source := PhoneSource.PLACE
  place_query_slot := some "business_name"
  place_area_slot := some "business_location"

-- ===========================================================================
-- engine/planner.py
-- ===========================================================================

/-- `NextAction` from `engine/planner.py`. -/
inductive NextAction where
  | ASK_QUESTION | CONFIRM | COMPLETE | FIND_PLACE
deriving DecidableEq, Repr

def NextAction.value : NextAction → String
  | .ASK_QUESTION => "ASK_QUESTION"
  | .CONFIRM => "CONFIRM"
  | .COMPLETE => "COMPLETE"
  | .FIND_PLACE => "FIND_PLACE"

/-- `QuickReply` dataclass from `engine/planner.py`. -/
structure QuickReply where
  label : String
  value : String
deriving DecidableEq, Repr

/-- `Question` dataclass from `engine/planner.py`. -/
structure Question where
  slot_name : String
  input_type : String
  prompt : String
  quick_replies : Option (List QuickReply) := Option.none
deriving DecidableEq, Repr

/-- `ConfirmationCard` dataclass from `engine/planner.py`. -/
structure ConfirmationCard where
  title : String
  lines : List String
  confirm_label : String := "Yes, that's correct"
  reject_label : String := "No, let me change something"
  card_id : Option String := Option.none
deriving DecidableEq, Repr

/-- `PlaceSearchParams` dataclass from `engine/planner.py`. -/
structure PlaceSearchParams where
  query : String
  area : String
deriving DecidableEq, Repr

/-- `PlannerResult` dataclass from `engine/planner.py`. -/
structure PlannerResult where
  next_action : NextAction
  question : Option Question := Option.none
  confirmation_card : Option ConfirmationCard := Option.none
  place_search_params : Option PlaceSearchParams := Option.none
  assistant_message : String := ""
deriving DecidableEq, Repr

/-- `is_slot_filled` from `engine/planner.py`: absent and stored `None` both
read back as `None`; a string is unfilled when it trims to empty; every other
value (including `0` and `False`) is filled. -/
def is_slot_filled (slots : SlotStore) (slot_name : String) : Bool :=
  match dictGet slots slot_name with
  | Option.none => false
  | some Value.none => false
  | some (Value.str s) => !(pyStrip s == "")
  | some (Value.int _) => true
  | some (Value.bool _) => true

/-- `get_next_slot` from `engine/planner.py`. -/
def get_next_slot (spec : AgentSpec) (slots : SlotStore) : Option SlotSpec :=
  spec.slots_in_order.find? (fun s => s.required && !(is_slot_filled slots s.name))

/-- `get_missing_required_slots` from `engine/planner.py`. -/
def get_missing_required_slots (spec : AgentSpec) (slots : SlotStore) : List String :=
  (spec.slots_in_order.filter (fun s => s.required && !(is_slot_filled slots s.name))).map
    (fun s => s.name)

/-- `FIND_PLACE_KEYWORDS` from `engine/planner.py`. -/
def FIND_PLACE_KEYWORDS : List String := [
  "don't know",
  "dont know",
  "not sure",
  "find it",
  "look it up",
  "search for it",
  "i don't have",
  "i dont have",
  "can you find",
  "help me find",
  "find the number",
  "look up the number",
  "search",
  "find"]

/-- `should_trigger_find_place` from `engine/planner.py`. -/
def should_trigger_find_place (user_message : String) (current_slot : Option SlotSpec) :
    Bool :=
  match current_slot with
  | Option.none => false
  | some s =>
    if s.input_type ≠ InputType.PHONE then false
    else FIND_PLACE_KEYWORDS.any (fun kw => strContainsSub (pyLower user_message) kw)

/-- `build_question` from `engine/planner.py`. -/
def build_question (slot_spec : SlotSpec) : Question :=
  let quick_replies :=
    match slot_spec.get_quick_replies with
    | some qr => some (qr.map (fun p => QuickReply.mk p.1 p.2))
    | Option.none => Option.none
  { slot_name := slot_spec.name
    input_type := slot_spec.input_type.value
    prompt := slot_spec.prompt
    quick_replies := quick_replies }

/-- `format_slot_value_for_display` from `engine/planner.py`. -/
def format_slot_value_for_display (slot_name : String) (value : Value) : String :=
  match value with
  | Value.none => "(not provided)"
  | _ =>
    let value_str := pyStr value
    if slot_name = "reason_category" then
      if value_str = "SICK" then "I'm sick"
      else if value_str = "CARER" then "Caring for someone"
      else if value_str = "MENTAL_HEALTH" then "Mental health day"
      else if value_str = "MEDICAL_APPOINTMENT" then "Medical appointment"
      else value_str
    else value_str

/-- The character U+007B (opening curly brace). -/
def lbrace : Char := Char.ofNat 123

/-- The character U+007D (closing curly brace). -/
def rbrace : Char := Char.ofNat 125

def lbraceStr : String := String.mk [lbrace]

def rbraceStr : String := String.mk [rbrace]

/-- A word character in the sense of the regex class backslash-w. -/
def isWordChar (c : Char) : Bool := c.isAlphanum || c = '_'

/-- The matches of the placeholder regex used by `build_confirmation_card`
(an opening brace, one or more word characters, a closing brace), in scan
order.  Scanning resumes one character past each opening brace, which finds
the same matches as resuming past the closing brace because the skipped
span contains no opening brace. -/
def find_placeholders : List Char → List String
  | [] => []
  | c :: rest =>
    let tail_matches := find_placeholders rest
    if c = lbrace then
      let w := rest.takeWhile isWordChar
      match w, (rest.dropWhile isWordChar).head? with
      | _ :: _, some c2 =>
        if c2 = rbrace then String.mk w :: tail_matches else tail_matches
      | _, _ => tail_matches
    else tail_matches

/-- A 32-bit string fingerprint standing in for CPython's builtin `hash`
(which is process-seeded and unobservable here); `build_confirmation_card` only needs
some deterministic function of the rendered content, and no claim below
depends on the fingerprint's value. -/
def pyHash32 (s : String) : Nat :=
  s.toList.foldl (fun h c => (h * 31 + c.toNat) % 4294967296) 0

/-- `hex(n)[2:]` for a nonnegative `n`. -/
def pyHexDigits (n : Nat) : String := String.mk (Nat.toDigits 16 n)

/-- `build_confirmation_card` from `engine/planner.py`. -/
def build_confirmation_card (spec : AgentSpec) (slots : SlotStore) : ConfirmationCard :=
  let formatted_lines := spec.confirm_lines.map (fun line_template =>
    let placeholders := find_placeholders line_template.toList
    placeholders.foldl (fun formatted_line placeholder =>
      let value := (dictGet slots placeholder).getD (Value.str "(not provided)")
      let display_value := format_slot_value_for_display placeholder value
      formatted_line.replace (lbraceStr ++ placeholder ++ rbraceStr) display_value)
      line_template)
  let card_content := spec.confirm_title ++ "|" ++ String.intercalate "|" formatted_lines
  let card_id := pyHexDigits (pyHash32 card_content)
  { title := spec.confirm_title
    lines := formatted_lines
    confirm_label := "Yes, that's correct"
    reject_label := "No, let me change something"
    card_id := some card_id }

/-- `build_place_search_params` from `engine/planner.py` (`slots.get(k, default)`
returns the default only when the key is absent; `str(...)` is then applied to
whichever value was obtained). -/
def build_place_search_params (spec : AgentSpec) (slots : SlotStore) : PlaceSearchParams :=
  let query :=
    match spec.place_query_slot with
    | some q => if q = "" then "business" else pyStr ((dictGet slots q).getD (Value.str "business"))
    | Option.none => "business"
  let area :=
    match spec.place_area_slot with
    | some a => if a = "" then "Australia" else pyStr ((dictGet slots a).getD (Value.str "Australia"))
    | Option.none => "Australia"
  { query := query, area := area }

/-- The `current_slot_spec` resolution inside `decide_next_action`
(`if current_question_slot:` is falsy for both `None` and the empty
string). -/
def current_slot_spec_of (spec : AgentSpec) (current_question_slot : Option String) :
    Option SlotSpec :=
  match current_question_slot with
  | some n => if n = "" then Option.none else spec.get_slot_by_name n
  | Option.none => Option.none

/-- `decide_next_action` from `engine/planner.py`. -/
def decide_next_action (spec : AgentSpec) (slots : SlotStore)
    (client_action : Option String := Option.none) (user_message : String := "")
    (current_question_slot : Option String := Option.none) : PlannerResult :=
  if client_action = some "CONFIRM" then
    { next_action := NextAction.COMPLETE
      assistant_message := "Great! I'll place the call now." }
  else if client_action = some "REJECT" then
    match get_next_slot spec slots with
    | some next_slot =>
      { next_action := NextAction.ASK_QUESTION
        question := some (build_question next_slot)
        assistant_message := "No problem! " ++ next_slot.prompt }
    | Option.none =>
      { next_action := NextAction.ASK_QUESTION
        assistant_message := "What would you like to change?" }
  else
    let current_slot_spec := current_slot_spec_of spec current_question_slot
    if should_trigger_find_place user_message current_slot_spec then
      { next_action := NextAction.FIND_PLACE
        place_search_params := some (build_place_search_params spec slots)
        assistant_message := "I'll help you find the number." }
    else
      match get_next_slot spec slots with
      | Option.none =>
        { next_action := NextAction.CONFIRM
          confirmation_card := some (build_confirmation_card spec slots)
          assistant_message := "Let me confirm the details:" }
      | some next_slot =>
        { next_action := NextAction.ASK_QUESTION
          question := some (build_question next_slot)
          assistant_message := next_slot.prompt }

/-- The `AGENTS` registry and `get_agent_spec` from `agents/specs.py`:
`None` here corresponds to the `ValueError` raised for an unknown type. -/
def get_agent_spec (agent_type : String) : Option AgentSpec :=
  if agent_type = "SICK_CALLER" then some SICK_CALLER_SPEC
  else if agent_type = "STOCK_CHECKER" then some STOCK_CHECKER_SPEC
  else if agent_type = "RESTAURANT_RESERVATION" then some RESTAURANT_RESERVATION_SPEC
  else if agent_type = "CANCEL_APPOINTMENT" then some CANCEL_APPOINTMENT_SPEC
  else Option.none

-- ===========================================================================
-- engine/extract.py (deterministic tier)
-- ===========================================================================

/-- `extract_choice_value` from `engine/extract.py`. -/
def extract_choice_value (user_message : String) (slot_spec : SlotSpec) : Option String :=
  match slot_spec.choices with
  | Option.none => Option.none
  | some choices =>
    if choices.isEmpty then Option.none
    else
      let message_lower := pyStrip (pyLower user_message)
      (choices.find? (fun choice =>
        message_lower == pyLower choice.value ||
        message_lower == pyLower choice.label ||
        (let label_lower := pyLower choice.label
         let clean_label := (label_lower.replace "i'm " "").replace "i am " ""
         strContainsSub message_lower clean_label ||
           strContainsSub label_lower message_lower))).map
        (fun choice => choice.value)

/-- The `yes_patterns` list of `extract_yes_no_value`. -/
def yes_patterns : List String :=
  ["yes", "yeah", "yep", "sure", "ok", "okay", "yup", "absolutely", "definitely",
   "please", "y"]

/-- The `no_patterns` list of `extract_yes_no_value`. -/
def no_patterns : List String :=
  ["no", "nope", "nah", "not", "don't", "dont", "n"]

/-- The per-pattern test of `extract_yes_no_value`: the normalized message is
the pattern or begins with the pattern followed by a space. -/
def yesNoPatternMatch (message_lower pattern : String) : Bool :=
  message_lower == pattern || pyStartsWith message_lower (pattern ++ " ")

/-- `extract_yes_no_value` from `engine/extract.py`: the affirmative loop runs
first, then the negative loop. -/
def extract_yes_no_value (user_message : String) : Option String :=
  let message_lower := pyStrip (pyLower user_message)
  if yes_patterns.any (fun p => yesNoPatternMatch message_lower p) then some "YES"
  else if no_patterns.any (fun p => yesNoPatternMatch message_lower p) then some "NO"
  else Option.none

/-- The digit characters of a phone input, in order (`re.sub(r'\D', '', phone)`). -/
def phoneDigits (phone : String) : String :=
  String.mk (phone.toList.filter Char.isDigit)

/-- `normalize_phone_number` from `engine/extract.py`, branch for branch:
after the Australian patterns and the two 10-plus-digit heuristics, any
input with at least 8 digits is returned trimmed as-is, and only shorter
inputs yield `None`. -/
def normalize_phone_number (phone : String) : Option String :=
  let has_plus := pyStartsWith (pyStrip phone) "+"
  let digits := phoneDigits phone
  if digits.length = 0 then Option.none
  else if digits.length = 10 ∧ pyStartsWith digits "0" then
    some ("+61" ++ pyDropChars digits 1)
  else if digits.length = 9 ∧ pyStartsWith digits "4" then
    some ("+61" ++ digits)
  else if digits.length = 11 ∧ pyStartsWith digits "61" then
    some ("+" ++ digits)
  else if 10 ≤ digits.length ∧ has_plus then
    some ("+" ++ digits)
  else if 10 ≤ digits.length then
    (if pyStartsWith digits "1" || pyStartsWith digits "44" || pyStartsWith digits "61" then
      some ("+" ++ digits)
    else if digits.length = 10 ∧ pyStartsWith digits "0" then
      some ("+61" ++ pyDropChars digits 1)
    else if 8 ≤ digits.length then some (pyStrip phone)
    else Option.none)
  else if 8 ≤ digits.length then some (pyStrip phone)
  else Option.none

/-- The numeric value of a list of decimal digit characters. -/
def digitsToNat (cs : List Char) : Nat :=
  cs.foldl (fun acc c => acc * 10 + (c.toNat - 48)) 0

/-- `parse_number` from `engine/extract.py`: the written words "zero".."twelve",
else the first contiguous digit run in the input. -/
def parse_number (num_str : String) : Option Int :=
  let num_lower := pyStrip (pyLower num_str)
  let word_to_num : List (String × Int) :=
    [("zero", 0), ("one", 1), ("two", 2), ("three", 3), ("four", 4),
     ("five", 5), ("six", 6), ("seven", 7), ("eight", 8), ("nine", 9),
     ("ten", 10), ("eleven", 11), ("twelve", 12)]
  match (word_to_num.find? (fun p => p.1 = num_lower)).map (fun p => p.2) with
  | some n => some n
  | Option.none =>
    let rest := num_str.toList.dropWhile (fun c => !(c.isDigit))
    match rest with
    | [] => Option.none
    | _ => some (Int.ofNat (digitsToNat (rest.takeWhile Char.isDigit)))

/-- `extract_slot_deterministic` from `engine/extract.py`.  The DATE and TIME
parsers (`parse_date`, `parse_time`) read the current calendar date through
`date.today()`, so they are passed in as the environment parameters
`parseDateFn` and `parseTimeFn`; every other branch is embedded directly. -/
def extract_slot_deterministic (parseDateFn parseTimeFn : String → Option String)
    (user_message : String) (slot_spec : SlotSpec) : Option Value × Bool :=
  match slot_spec.input_type with
  | InputType.CHOICE =>
    let value := (extract_choice_value user_message slot_spec).map Value.str
    (value, value.isSome)
  | InputType.YES_NO =>
    let value := (extract_yes_no_value user_message).map Value.str
    (value, value.isSome)
  | InputType.PHONE =>
    let value := (normalize_phone_number user_message).map Value.str
    (value, value.isSome)
  | InputType.DATE =>
    let value := (parseDateFn user_message).map Value.str
    (value, value.isSome)
  | InputType.TIME =>
    let value := (parseTimeFn user_message).map Value.str
    (value, value.isSome)
  | InputType.NUMBER =>
    let value := (parse_number user_message).map Value.int
    (value, value.isSome)
  | InputType.TEXT =>
    let value := pyStrip user_message
    (if value = "" then Option.none else some (Value.str value), !(value = ""))

-- ===========================================================================
-- app/models.py (the request/response models the claims touch)
-- ===========================================================================

namespace Api

/-- `InputType` from `app/models.py` (has `BOOLEAN` in addition to the
planner-side input types). -/
inductive InputType where
  | TEXT | NUMBER | DATE | TIME | BOOLEAN | CHOICE | PHONE | YES_NO
deriving DecidableEq, Repr

/-- `NextAction` from `app/models.py`. -/
inductive NextAction where
  | ASK_QUESTION | CONFIRM | COMPLETE | FIND_PLACE
deriving DecidableEq, Repr

/-- `Confidence` from `app/models.py`. -/
inductive Confidence where
  | LOW | MEDIUM | HIGH
deriving DecidableEq, Repr

/-- `ClientAction` from `app/models.py`. -/
inductive ClientAction where
  | CONFIRM | REJECT
deriving DecidableEq, Repr

/-- `Choice` from `app/models.py`. -/
structure Choice where
  label : String
  value : String
deriving DecidableEq, Repr

/-- `QuickReply` from `app/models.py`. -/
structure QuickReply where
  label : String
  value : String
deriving DecidableEq, Repr

/-- `Question` from `app/models.py`. -/
structure Question where
  text : String
  field : String
  inputType : InputType
  choices : Option (List Choice) := Option.none
  quickReplies : Option (List QuickReply) := Option.none
  optional : Bool := false
deriving DecidableEq, Repr

/-- `ConfirmationCard` from `app/models.py`. -/
structure ConfirmationCard where
  title : String
  lines : List String
  confirmLabel : String := "Yes"
  rejectLabel : String := "Not quite"
  cardId : Option String := Option.none
deriving DecidableEq, Repr

/-- `PlaceSearchParams` from `app/models.py`. -/
structure PlaceSearchParams where
  query : String
  area : String
  country : String := "AU"
deriving DecidableEq, Repr

/-- `AgentMeta` from `app/models.py`. -/
structure AgentMeta where
  phoneSource : String
  directPhoneSlot : Option String := Option.none
  title : String
  description : String
deriving DecidableEq, Repr

/-- `DebugPayload` from `app/models.py`. -/
structure DebugPayload where
  planner_action : String
  planner_question_slot : Option String := Option.none
  extraction_llm_used : Bool
  extraction_raw_data : Option SlotStore := Option.none
  merged_slots : SlotStore
  missing_required_slots : List String
deriving DecidableEq, Repr

/-- `ConversationRequest` from `app/models.py`.  The agent type travels as the
caller-supplied identifier string (`request.agentType.value` is what the
orchestrator consumes); `messageHistory` is unused by the v2 orchestrator and
omitted. -/
structure ConversationRequest where
  conversationId : String
  agentType : String
  userMessage : String
  slots : SlotStore := []
  debug : Bool := false
  clientAction : Option ClientAction := Option.none
  idempotencyKey : Option String := Option.none
  currentQuestionSlotName : Option String := Option.none
deriving DecidableEq, Repr

/-- `ConversationResponse` from `app/models.py`. -/
structure ConversationResponse where
  assistantMessage : String
  nextAction : NextAction
  question : Option Question := Option.none
  extractedData : Option SlotStore := Option.none
  confidence : Confidence := Confidence.MEDIUM
  confirmationCard : Option ConfirmationCard := Option.none
  placeSearchParams : Option PlaceSearchParams := Option.none
  agentMeta : Option AgentMeta := Option.none
  aiCallMade : Bool
  aiModel : String
  engineVersion : String := "v1"
  debugPayload : Option DebugPayload := Option.none
deriving DecidableEq, Repr

end Api

-- ===========================================================================
-- app/conversation_v2.py
-- ===========================================================================

/-- `ExtractionResult` from `engine/extract.py` as consumed by the
orchestrator (the `confidence` tag is not read by `process_conversation_v2`
and is omitted). -/
structure ExtractionResult where
  extracted_data : SlotStore := []
  llm_used : Bool := false
  llm_model : Option String := Option.none
deriving DecidableEq, Repr

/-- The per-turn environment of `process_conversation_v2`: the outcome of the
awaited `extract_slots` call (which never raises — `extract_with_llm` catches
its own exceptions), and an optional unexpected exception occurring in the
extraction / merge / planning / response-assembly region, which the
orchestrator's generic `except Exception` handler intercepts.  `ValueError`
is raised only by `get_agent_spec`, which is modelled separately. -/
structure TurnOracle where
  extraction : ExtractionResult := {}
  failure : Option String := Option.none
deriving DecidableEq, Repr

/-- An `HTTPException` surfaced to the caller. -/
structure HttpError where
  status : Nat
  detail : String
deriving DecidableEq, Repr

/-- The `_idempotency_store_v2` dict: key, cached response, creation time
(times in seconds; the 5-minute TTL is 300). -/
abbrev IdemStore := List (String × Api.ConversationResponse × Nat)

def IDEMPOTENCY_TTL : Nat := 300

def dictGetIdem (store : IdemStore) (k : String) :
    Option (Api.ConversationResponse × Nat) :=
  (store.find? (fun e => e.1 = k)).map (fun e => e.2)

/-- `_get_idempotent_response`: a fresh entry is returned; an expired entry is
deleted and a miss reported. -/
def get_idempotent_response (store : IdemStore) (key : String) (now : Nat) :
    Option Api.ConversationResponse × IdemStore :=
  match dictGetIdem store key with
  | some (response, timestamp) =>
    if now - timestamp < IDEMPOTENCY_TTL then (some response, store)
    else (Option.none, store.filter (fun e => !(e.1 = key)))
  | Option.none => (Option.none, store)

/-- `_store_idempotent_response`: write the entry (modelled up to key order),
then prune entries older than the TTL once the store holds more than 1000. -/
def store_idempotent_response (store : IdemStore) (key : String)
    (response : Api.ConversationResponse) (now : Nat) : IdemStore :=
  let store1 := store.filter (fun e => !(e.1 = key)) ++ [(key, response, now)]
  if store1.length > 1000 then
    store1.filter (fun e => !(e.2.2 < now - IDEMPOTENCY_TTL))
  else store1

/-- `_build_agent_meta`. -/
def build_agent_meta (spec : AgentSpec) : Api.AgentMeta :=
  { phoneSource := spec.phone_source.value
    directPhoneSlot := spec.direct_phone_slot
    title := spec.title
    description := spec.description }

/-- The `input_type_map` of `_planner_to_api_question` (`.get` with default
`InputType.TEXT`). -/
def inputTypeMapGet (s : String) : Api.InputType :=
  if s = "TEXT" then Api.InputType.TEXT
  else if s = "PHONE" then Api.InputType.PHONE
  else if s = "DATE" then Api.InputType.DATE
  else if s = "TIME" then Api.InputType.TIME
  else if s = "NUMBER" then Api.InputType.NUMBER
  else if s = "CHOICE" then Api.InputType.CHOICE
  else if s = "YES_NO" then Api.InputType.YES_NO
  else Api.InputType.TEXT

/-- `_planner_to_api_question` (`if planner_question.quick_replies:` is falsy
for both `None` and the empty list, and the legacy `choices` are populated
from the quick replies). -/
def planner_to_api_question : Option Question → Option Api.Question
  | Option.none => Option.none
  | some pq =>
    let quick_replies : Option (List Api.QuickReply) :=
      match pq.quick_replies with
      | some qrs =>
        if qrs.isEmpty then Option.none
        else some (qrs.map (fun qr => { label := qr.label, value := qr.value }))
      | Option.none => Option.none
    let choices : Option (List Api.Choice) :=
      match quick_replies with
      | some qrl => some (qrl.map (fun qr => { label := qr.label, value := qr.value }))
      | Option.none => Option.none
    some { text := pq.prompt
           field := pq.slot_name
           inputType := inputTypeMapGet pq.input_type
           choices := choices
           quickReplies := quick_replies
           optional := false }

/-- `_planner_to_api_confirmation_card`. -/
def planner_to_api_confirmation_card : Option ConfirmationCard → Option Api.ConfirmationCard
  | Option.none => Option.none
  | some c =>
    some { title := c.title
           lines := c.lines
           confirmLabel := c.confirm_label
           rejectLabel := c.reject_label
           cardId := c.card_id }

/-- `_planner_to_api_place_search_params`. -/
def planner_to_api_place_search_params : Option PlaceSearchParams → Option Api.PlaceSearchParams
  | Option.none => Option.none
  | some p => some { query := p.query, area := p.area, country := "AU" }

/-- `_planner_action_to_api_action`. -/
def planner_action_to_api_action : NextAction → Api.NextAction
  | NextAction.ASK_QUESTION => Api.NextAction.ASK_QUESTION
  | NextAction.CONFIRM => Api.NextAction.CONFIRM
  | NextAction.COMPLETE => Api.NextAction.COMPLETE
  | NextAction.FIND_PLACE => Api.NextAction.FIND_PLACE

/-- Python `a or b` on an optional string (`extraction_result.llm_model or
"deterministic"`). -/
def pyOrStr (o : Option String) (d : String) : String :=
  match o with
  | some s => if s = "" then d else s
  | Option.none => d

/-- `if request.idempotencyKey:` — the key is used only when present and
non-empty. -/
def idemKeyOf (req : Api.ConversationRequest) : Option String :=
  match req.idempotencyKey with
  | some k => if k = "" then Option.none else some k
  | Option.none => Option.none

/-- `_create_fallback_response` from `app/conversation_v2.py`, including its
inner `except Exception` branch (taken when the agent type cannot be
re-resolved), which yields the minimal "ultimate" fallback. -/
def create_fallback_response (req : Api.ConversationRequest) : Api.ConversationResponse :=
  match get_agent_spec req.agentType with
  | some spec =>
    let agent_meta := build_agent_meta spec
    let existing_slots := req.slots
    let missing := get_missing_required_slots spec existing_slots
    let askBranch : Option Api.ConversationResponse :=
      match missing with
      | m :: _ =>
        match spec.get_slot_by_name m with
        | some slot_spec =>
          some { assistantMessage := "I need a bit more information. " ++ slot_spec.prompt
                 nextAction := Api.NextAction.ASK_QUESTION
                 question := planner_to_api_question (some (build_question slot_spec))
                 extractedData := some existing_slots
                 confidence := Api.Confidence.LOW
                 confirmationCard := Option.none
                 placeSearchParams := Option.none
                 agentMeta := some agent_meta
                 aiCallMade := false
                 aiModel := "fallback"
                 engineVersion := "v2" }
        | Option.none => Option.none
      | [] => Option.none
    match askBranch with
    | some r => r
    | Option.none =>
      { assistantMessage := "Let me confirm the details:"
        nextAction := Api.NextAction.CONFIRM
        question := Option.none
        extractedData := some existing_slots
        confidence := Api.Confidence.LOW
        confirmationCard := planner_to_api_confirmation_card
          (some (build_confirmation_card spec existing_slots))
        placeSearchParams := Option.none
        agentMeta := some agent_meta
        aiCallMade := false
        aiModel := "fallback"
        engineVersion := "v2" }
  | Option.none =>
    { assistantMessage := "I'm sorry, something went wrong. Please try again."
      nextAction := Api.NextAction.ASK_QUESTION
      question := some { text := "What would you like help with?"
                         field := "unknown"
                         inputType := Api.InputType.TEXT }
      extractedData := some req.slots
      confidence := Api.Confidence.LOW
      confirmationCard := Option.none
      placeSearchParams := Option.none
      agentMeta := some { phoneSource := "PLACE"
                          directPhoneSlot := Option.none
                          title := "Assistant"
                          description := "" }
      aiCallMade := false
      aiModel := "fallback" }

/-- The body of `process_conversation_v2` past the idempotency check: the
CONFIRM / REJECT short-circuits, then the normal extract-merge-plan flow,
whose unexpected failures are replaced by the fallback (and, per the source,
not cached). -/
def process_after_idem (req : Api.ConversationRequest) (spec : AgentSpec)
    (store : IdemStore) (now : Nat) (oracle : TurnOracle) :
    Except HttpError Api.ConversationResponse × IdemStore :=
  let agent_meta := build_agent_meta spec
  let existing_slots := req.slots
  let stored (r : Api.ConversationResponse) : IdemStore :=
    match idemKeyOf req with
    | some key => store_idempotent_response store key r now
    | Option.none => store
  match req.clientAction with
  | some Api.ClientAction.CONFIRM =>
    let response : Api.ConversationResponse :=
      { assistantMessage := "Great! I'll place the call now."
        nextAction := Api.NextAction.COMPLETE
        question := Option.none
        extractedData := some existing_slots
        confidence := Api.Confidence.HIGH
        confirmationCard := Option.none
        placeSearchParams := Option.none
        agentMeta := some agent_meta
        aiCallMade := false
        aiModel := "deterministic"
        engineVersion := "v2" }
    (Except.ok response, stored response)
  | some Api.ClientAction.REJECT =>
    let planner_result := decide_next_action spec existing_slots (some "REJECT")
    let response : Api.ConversationResponse :=
      { assistantMessage := planner_result.assistant_message
        nextAction := planner_action_to_api_action planner_result.next_action
        question := planner_to_api_question planner_result.question
        extractedData := some existing_slots
        confidence := Api.Confidence.HIGH
        confirmationCard := Option.none
        placeSearchParams := Option.none
        agentMeta := some agent_meta
        aiCallMade := false
        aiModel := "deterministic"
        engineVersion := "v2" }
    (Except.ok response, stored response)
  | Option.none =>
    match oracle.failure with
    | some _ => (Except.ok (create_fallback_response req), store)
    | Option.none =>
      let extraction_result := oracle.extraction
      let merged_slots := pyDictMerge existing_slots extraction_result.extracted_data
      let planner_result := decide_next_action spec merged_slots Option.none
        req.userMessage req.currentQuestionSlotName
      let debug_payload : Option Api.DebugPayload :=
        if req.debug then
          some { planner_action := planner_result.next_action.value
                 planner_question_slot := planner_result.question.map (fun q => q.slot_name)
                 extraction_llm_used := extraction_result.llm_used
                 extraction_raw_data := some extraction_result.extracted_data
                 merged_slots := merged_slots
                 missing_required_slots := get_missing_required_slots spec merged_slots }
        else Option.none
      let response : Api.ConversationResponse :=
        { assistantMessage := planner_result.assistant_message
          nextAction := planner_action_to_api_action planner_result.next_action
          question := planner_to_api_question planner_result.question
          extractedData := some merged_slots
          confidence := if extraction_result.llm_used then Api.Confidence.MEDIUM
            else Api.Confidence.HIGH
          confirmationCard := planner_to_api_confirmation_card planner_result.confirmation_card
          placeSearchParams := planner_to_api_place_search_params
            planner_result.place_search_params
          agentMeta := some agent_meta
          aiCallMade := extraction_result.llm_used
          aiModel := pyOrStr extraction_result.llm_model "deterministic"
          engineVersion := "v2"
          debugPayload := debug_payload }
      (Except.ok response, stored response)

/-- `process_conversation_v2` from `app/conversation_v2.py`: resolve the agent
spec (a `ValueError` becomes the HTTP 400), honour the idempotency cache, and
hand off to the per-turn body. -/
def process_conversation_v2 (req : Api.ConversationRequest) (store : IdemStore)
    (now : Nat) (oracle : TurnOracle) :
    Except HttpError Api.ConversationResponse × IdemStore :=
  match get_agent_spec req.agentType with
  | Option.none =>
    (Except.error { status := 400
                    detail := "Unknown agent type: " ++ req.agentType }, store)
  | some spec =>
    match idemKeyOf req with
    | some key =>
      match get_idempotent_response store key now with
      | (some cached, store1) => (Except.ok cached, store1)
      | (Option.none, store1) => process_after_idem req spec store1 now oracle
    | Option.none => process_after_idem req spec store now oracle

-- ===========================================================================
-- app/main.py (legacy sanitizer path)
-- ===========================================================================

/-- `REQUIRED_SLOTS_MAP` from `app/main.py` (`.get(agent_type, [])`); each
entry is (field name, question text, input type). -/
def REQUIRED_SLOTS_MAP (agent_type : String) : List (String × String × String) :=
  if agent_type = "SICK_CALLER" then [
    ("employer_name", "Who should I call to notify?", "TEXT"),
    ("employer_phone", "What's their phone number?", "PHONE"),
    ("caller_name", "What name should I give them?", "TEXT"),
    ("shift_date", "When is your shift?", "DATE"),
    ("shift_start_time", "What time does it start?", "TIME"),
    ("reason_category", "What's the reason?", "CHOICE")]
  else if agent_type = "STOCK_CHECKER" then [
    ("retailer_name", "Which retailer should I call?", "TEXT"),
    ("product_name", "What product are you looking for?", "TEXT"),
    ("quantity", "How many do you need?", "NUMBER"),
    ("store_location", "Which suburb or area?", "TEXT")]
  else if agent_type = "RESTAURANT_RESERVATION" then [
    ("restaurant_name", "Which restaurant would you like to book?", "TEXT"),
    ("party_size", "How many people?", "NUMBER"),
    ("date", "What date?", "DATE"),
    ("time", "What time?", "TIME")]
  else if agent_type = "CANCEL_APPOINTMENT" then [
    ("business_name", "What's the name of the business?", "TEXT"),
    ("appointment_day", "What day is the appointment?", "DATE"),
    ("appointment_time", "What time is the appointment?", "TIME"),
    ("customer_name", "What name is the booking under?", "TEXT")]
  else []

/-- The slot test used throughout `_get_next_missing_slot`:
`field in slots and slots.get(field)` — presence plus Python truthiness of
the stored value. -/
def legacySlotTruthy (slots : SlotStore) (f : String) : Bool :=
  match dictGet slots f with
  | some v => pyTruthy v
  | Option.none => false

/-- `_get_next_missing_slot` from `app/main.py`: the first required tuple
whose field is absent or holds a falsy value (`field not in slots or not
slots.get(field)`). -/
def get_next_missing_slot (agent_type : String) (slots : SlotStore) :
    Option (String × String × String) :=
  (REQUIRED_SLOTS_MAP agent_type).find? (fun t => !(legacySlotTruthy slots t.1))

/-- `InputType(input_type_str)` with the `except ValueError` fallback to
`TEXT`, as used by the sanitizer and the endpoint fallback. -/
def inputTypeOfString (s : String) : Api.InputType :=
  if s = "TEXT" then Api.InputType.TEXT
  else if s = "NUMBER" then Api.InputType.NUMBER
  else if s = "DATE" then Api.InputType.DATE
  else if s = "TIME" then Api.InputType.TIME
  else if s = "BOOLEAN" then Api.InputType.BOOLEAN
  else if s = "CHOICE" then Api.InputType.CHOICE
  else if s = "PHONE" then Api.InputType.PHONE
  else if s = "YES_NO" then Api.InputType.YES_NO
  else Api.InputType.TEXT

/-- The `Question(...)` object the sanitizer builds for a missing-slot tuple. -/
def mkLegacyQuestion (t : String × String × String) : Api.Question :=
  { text := t.2.1
    field := t.1
    inputType := inputTypeOfString t.2.2
    choices := Option.none
    optional := false }

/-- `sanitize_conversation_response` from `app/main.py` (the
`conversation_id` parameter is only logged and is omitted).  `extractedData`
is merged into the caller's slots first; the action/payload repairs then run
on the original `nextAction`; finally the assistant message is repaired and
the response is rebuilt with the full merged slots. -/
def sanitize_conversation_response (response : Api.ConversationResponse)
    (agent_type : String) (slots : SlotStore) : Api.ConversationResponse :=
  let extracted_data := response.extractedData.getD []
  let merged_slots := pyDictMerge slots extracted_data
  -- (next_action, question, assistant_message) after the block repairs
  let repaired : Api.NextAction × Option Api.Question × String :=
    match response.nextAction with
    | Api.NextAction.FIND_PLACE =>
      match response.placeSearchParams with
      | Option.none =>
        (match get_next_missing_slot agent_type merged_slots with
         | some t => (Api.NextAction.ASK_QUESTION, some (mkLegacyQuestion t), t.2.1)
         | Option.none =>
           (Api.NextAction.ASK_QUESTION, response.question,
            "I need more information. What's the name of the business you'd like to call?"))
      | some _ =>
        match response.question with
        | some _ => (Api.NextAction.FIND_PLACE, Option.none, response.assistantMessage)
        | Option.none =>
          (Api.NextAction.FIND_PLACE, response.question, response.assistantMessage)
    | Api.NextAction.CONFIRM =>
      match response.confirmationCard with
      | Option.none =>
        (match get_next_missing_slot agent_type merged_slots with
         | some t => (Api.NextAction.ASK_QUESTION, some (mkLegacyQuestion t), t.2.1)
         | Option.none =>
           (Api.NextAction.ASK_QUESTION, response.question, response.assistantMessage))
      | some _ =>
        match response.question with
        | some _ => (Api.NextAction.CONFIRM, Option.none, response.assistantMessage)
        | Option.none =>
          (Api.NextAction.CONFIRM, response.question, response.assistantMessage)
    | Api.NextAction.ASK_QUESTION =>
      match response.question with
      | Option.none =>
        (match get_next_missing_slot agent_type merged_slots with
         | some t =>
           (Api.NextAction.ASK_QUESTION, some (mkLegacyQuestion t),
            if pyStrip response.assistantMessage = "" then t.2.1
            else response.assistantMessage)
         | Option.none =>
           (Api.NextAction.ASK_QUESTION, response.question, response.assistantMessage))
      | some _ =>
        (Api.NextAction.ASK_QUESTION, response.question, response.assistantMessage)
    | Api.NextAction.COMPLETE =>
      (Api.NextAction.COMPLETE, response.question, response.assistantMessage)
  let next_action := repaired.1
  let question := repaired.2.1
  let assistant_message0 := repaired.2.2
  let assistant_message :=
    if pyStrip assistant_message0 = "" then
      match question with
      | some q => if q.text = "" then "I need a bit more information to continue." else q.text
      | Option.none => "I need a bit more information to continue."
    else assistant_message0
  { assistantMessage := assistant_message
    nextAction := next_action
    question := question
    extractedData := some merged_slots
    confidence := response.confidence
    confirmationCard :=
      if next_action = Api.NextAction.CONFIRM then response.confirmationCard
      else Option.none
    placeSearchParams :=
      if next_action = Api.NextAction.FIND_PLACE then response.placeSearchParams
      else Option.none
    aiCallMade := response.aiCallMade
    aiModel := response.aiModel }

-- ===========================================================================
-- Shared lemmas about the dict model
-- ===========================================================================

theorem dictContains_eq_isSome_dictGet (d : SlotStore) (k : String) :
    dictContains d k = (dictGet d k).isSome := by
  unfold dictContains dictGet
  cases d.find? (fun kv => kv.1 = k) <;> rfl

theorem find?_filter_key (a : List (String × Value)) (q : String × Value → Bool)
    (k : String) (h : ∀ x : String × Value, x.1 = k → q x = true) :
    (a.filter q).find? (fun kv => kv.1 = k) = a.find? (fun kv => kv.1 = k) := by
  induction a with
  | nil => rfl
  | cons x xs ih =>
    by_cases hk : x.1 = k
    · have hq := h x hk
      simp [List.filter_cons, hq, List.find?_cons_of_pos, hk]
    · by_cases hq : q x = true
      · simp only [List.filter_cons, hq, if_true]
        rw [List.find?_cons_of_neg, List.find?_cons_of_neg, ih] <;> simp [hk]
      · simp only [List.filter_cons, hq, if_false, Bool.false_eq_true]
        rw [List.find?_cons_of_neg, ih]
        simp [hk]

theorem dictGet_pyDictMerge (a b : SlotStore) (k : String) :
    dictGet (pyDictMerge a b) k =
      if dictContains b k then dictGet b k else dictGet a k := by
  unfold pyDictMerge dictGet
  rw [List.find?_append]
  by_cases hb : dictContains b k
  · have hnone :
        (a.filter fun kv => !(dictContains b kv.1)).find?
          (fun kv => kv.1 = k) = Option.none := by
      rw [List.find?_eq_none]
      intro x hx hpx
      have hk : x.1 = k := by simpa using hpx
      have hmem := List.of_mem_filter hx
      rw [hk, hb] at hmem
      simp at hmem
    rw [hnone, if_pos hb]
    cases b.find? (fun kv => decide (kv.1 = k)) <;> rfl
  · rw [find?_filter_key a _ k (fun x hxk => by rw [hxk]; simp [hb]), if_neg hb]
    have hbn : b.find? (fun kv => decide (kv.1 = k)) = Option.none := by
      cases hfind : b.find? (fun kv => decide (kv.1 = k)) with
      | none => rfl
      | some v =>
        exfalso
        apply hb
        unfold dictContains
        simp only [hfind, Option.isSome_some]
    rw [hbn]
    cases a.find? (fun x => decide (x.1 = k)) <;> rfl

theorem dictContains_pyDictMerge (a b : SlotStore) (k : String) :
    dictContains (pyDictMerge a b) k = (dictContains a k || dictContains b k) := by
  rw [dictContains_eq_isSome_dictGet, dictGet_pyDictMerge]
  by_cases hb : dictContains b k
  · rw [if_pos hb, ← dictContains_eq_isSome_dictGet, hb]
    simp
  · rw [if_neg hb, ← dictContains_eq_isSome_dictGet]
    cases hbb : dictContains b k
    · simp
    · exact absurd hbb hb

theorem is_slot_filled_pyDictMerge (a b : SlotStore) (n : String)
    (h : is_slot_filled a n = true) :
    is_slot_filled (pyDictMerge a b) n = true ∨ dictContains b n = true := by
  by_cases hb : dictContains b n
  · right
    exact hb
  · left
    unfold is_slot_filled at h ⊢
    rw [dictGet_pyDictMerge, if_neg hb]
    exact h

-- ===========================================================================
-- Shared lemmas about the orchestrator
-- ===========================================================================

theorem process_after_idem_normal (req : Api.ConversationRequest) (spec : AgentSpec)
    (store : IdemStore) (now : Nat) (oracle : TurnOracle)
    (hact : req.clientAction = Option.none) (hfail : oracle.failure = Option.none) :
    ∃ r, process_after_idem req spec store now oracle =
        (Except.ok r,
          match idemKeyOf req with
          | some key => store_idempotent_response store key r now
          | Option.none => store) ∧
      r.extractedData = some (pyDictMerge req.slots oracle.extraction.extracted_data) := by
  unfold process_after_idem
  simp only [hact, hfail]
  exact ⟨_, rfl, rfl⟩

theorem process_after_idem_ok (req : Api.ConversationRequest) (spec : AgentSpec)
    (store : IdemStore) (now : Nat) (oracle : TurnOracle) :
    ∃ r st, process_after_idem req spec store now oracle = (Except.ok r, st) := by
  unfold process_after_idem
  rcases req.clientAction with _ | ca
  · rcases oracle.failure with _ | msg
    · exact ⟨_, _, rfl⟩
    · exact ⟨_, _, rfl⟩
  · cases ca
    · exact ⟨_, _, rfl⟩
    · exact ⟨_, _, rfl⟩

-- ===========================================================================
-- C1
-- ===========================================================================

/-- C1: on the non-terminal path of the v2 orchestrator (agent recognized, no
terminal client action, no idempotency-cache hit, no internal failure), the
slot store returned in the response is exactly the shallow union of the
request's slots with the newly extracted slots; extracted values override
existing ones on key collision, no key of either input is dropped, and every
slot name filled in the request stays filled in the response unless it was
overridden by an extracted value. -/
theorem C1_merge_no_loss
    (req : Api.ConversationRequest) (store : IdemStore) (now : Nat) (oracle : TurnOracle)
    (spec : AgentSpec)
    (hspec : get_agent_spec req.agentType = some spec)
    (hact : req.clientAction = Option.none)
    (hfail : oracle.failure = Option.none)
    (hmiss : ∀ k, idemKeyOf req = some k →
      (get_idempotent_response store k now).1 = Option.none) :
    ∃ r st, process_conversation_v2 req store now oracle = (Except.ok r, st) ∧
      r.extractedData = some (pyDictMerge req.slots oracle.extraction.extracted_data) ∧
      (∀ k, dictGet (pyDictMerge req.slots oracle.extraction.extracted_data) k =
        if dictContains oracle.extraction.extracted_data k then
          dictGet oracle.extraction.extracted_data k
        else dictGet req.slots k) ∧
      (∀ k, dictContains (pyDictMerge req.slots oracle.extraction.extracted_data) k =
        (dictContains req.slots k || dictContains oracle.extraction.extracted_data k)) ∧
      (∀ n, is_slot_filled req.slots n = true →
        is_slot_filled (pyDictMerge req.slots oracle.extraction.extracted_data) n = true ∨
          dictContains oracle.extraction.extracted_data n = true) := by
  have props := fun st1 => process_after_idem_normal req spec st1 now oracle hact hfail
  unfold process_conversation_v2
  cases hkey : idemKeyOf req with
  | none =>
    obtain ⟨r, hr, hed⟩ := props store
    rw [hkey] at hr
    simp only [hspec, hkey]
    refine ⟨r, _, hr, hed, ?_, ?_, ?_⟩
    · exact fun k => dictGet_pyDictMerge req.slots oracle.extraction.extracted_data k
    · exact fun k => dictContains_pyDictMerge req.slots oracle.extraction.extracted_data k
    · exact fun n h => is_slot_filled_pyDictMerge req.slots oracle.extraction.extracted_data n h
  | some k =>
    have hm := hmiss k hkey
    rcases hgr : get_idempotent_response store k now with ⟨o, st1⟩
    rw [hgr] at hm
    simp only at hm
    subst hm
    simp only [hspec, hkey, hgr]
    obtain ⟨r, hr, hed⟩ := props st1
    rw [hkey] at hr
    refine ⟨r, _, hr, hed, ?_, ?_, ?_⟩
    · exact fun k => dictGet_pyDictMerge req.slots oracle.extraction.extracted_data k
    · exact fun k => dictContains_pyDictMerge req.slots oracle.extraction.extracted_data k
    · exact fun n h => is_slot_filled_pyDictMerge req.slots oracle.extraction.extracted_data n h

/-- Concrete request used by the C1 witness. -/
def reqC1 : Api.ConversationRequest :=
  { conversationId := "c1"
    agentType := "SICK_CALLER"
    userMessage := "my name is Robin"
    slots := [("employer_name", Value.str "Bunnings")] }

/-- Concrete turn environment used by the C1 witness. -/
def oracleC1 : TurnOracle :=
  { extraction := { extracted_data := [("caller_name", Value.str "Robin")] } }

/-- Witness for C1 at a concrete request, store, time and extraction. -/
theorem C1_merge_no_loss_witness :
    (get_agent_spec reqC1.agentType = some SICK_CALLER_SPEC ∧
      reqC1.clientAction = Option.none ∧
      oracleC1.failure = Option.none) ∧
    (∃ r st, process_conversation_v2 reqC1 [] 0 oracleC1 = (Except.ok r, st) ∧
      r.extractedData = some (pyDictMerge reqC1.slots oracleC1.extraction.extracted_data) ∧
      (∀ k, dictGet (pyDictMerge reqC1.slots oracleC1.extraction.extracted_data) k =
        if dictContains oracleC1.extraction.extracted_data k then
          dictGet oracleC1.extraction.extracted_data k
        else dictGet reqC1.slots k) ∧
      (∀ k, dictContains (pyDictMerge reqC1.slots oracleC1.extraction.extracted_data) k =
        (dictContains reqC1.slots k || dictContains oracleC1.extraction.extracted_data k)) ∧
      (∀ n, is_slot_filled reqC1.slots n = true →
        is_slot_filled (pyDictMerge reqC1.slots oracleC1.extraction.extracted_data) n = true ∨
          dictContains oracleC1.extraction.extracted_data n = true)) :=
  ⟨⟨rfl, rfl, rfl⟩,
    C1_merge_no_loss reqC1 [] 0 oracleC1 SICK_CALLER_SPEC rfl rfl rfl
      (fun _ h => Option.noConfusion h)⟩

-- ===========================================================================
-- C3
-- ===========================================================================

theorem get_slot_by_name_of_missing (spec : AgentSpec) (slots : SlotStore)
    (m : String) (rest : List String)
    (h : get_missing_required_slots spec slots = m :: rest) :
    ∃ s, spec.get_slot_by_name m = some s := by
  have hm : m ∈ get_missing_required_slots spec slots := by
    rw [h]
    exact List.mem_cons_self _ _
  unfold get_missing_required_slots at hm
  rw [List.mem_map] at hm
  obtain ⟨s, hs, hname⟩ := hm
  have hmem := List.mem_of_mem_filter hs
  have hsome : (spec.slots_in_order.find? (fun x => x.name = m)).isSome := by
    rw [List.find?_isSome]
    exact ⟨s, hmem, by simp [hname]⟩
  unfold AgentSpec.get_slot_by_name
  cases hfind : spec.slots_in_order.find? (fun x => x.name = m) with
  | none =>
    rw [hfind] at hsome
    simp at hsome
  | some s2 => exact ⟨s2, rfl⟩

theorem process_after_idem_failure (req : Api.ConversationRequest) (spec : AgentSpec)
    (store : IdemStore) (now : Nat) (oracle : TurnOracle) (msg : String)
    (hact : req.clientAction = Option.none) (hfail : oracle.failure = some msg) :
    process_after_idem req spec store now oracle =
      (Except.ok (create_fallback_response req), store) := by
  unfold process_after_idem
  simp only [hact, hfail]

theorem create_fallback_response_shape (req : Api.ConversationRequest) (spec : AgentSpec)
    (hspec : get_agent_spec req.agentType = some spec) :
    (create_fallback_response req).extractedData = some req.slots ∧
    (match get_missing_required_slots spec req.slots with
     | m :: _ =>
       (create_fallback_response req).nextAction = Api.NextAction.ASK_QUESTION ∧
       ∃ s, spec.get_slot_by_name m = some s ∧
         (create_fallback_response req).question =
           planner_to_api_question (some (build_question s)) ∧
         (create_fallback_response req).assistantMessage =
           "I need a bit more information. " ++ s.prompt
     | [] =>
       (create_fallback_response req).nextAction = Api.NextAction.CONFIRM ∧
       (create_fallback_response req).confirmationCard =
         planner_to_api_confirmation_card
           (some (build_confirmation_card spec req.slots))) := by
  cases hmissing : get_missing_required_slots spec req.slots with
  | nil =>
    unfold create_fallback_response
    simp only [hspec, hmissing]
    refine ⟨?_, ?_, ?_⟩ <;> first | rfl | trivial
  | cons m rest =>
    obtain ⟨s, hs⟩ := get_slot_by_name_of_missing spec req.slots m rest hmissing
    unfold create_fallback_response
    simp only [hspec, hmissing, hs]
    refine ⟨?_, ?_, s, ?_, ?_, ?_⟩ <;> first | rfl | trivial

/-- C3: the v2 orchestrator surfaces an error to the caller only when the
agent type is unrecognized; when the agent is recognized and an unexpected
exception occurs in the extraction / merge / planning / assembly region of a
non-terminal turn, the caller instead receives the deterministic fallback
response, which carries the request's own slot store and either asks for the
first missing required slot or, when none is missing, renders the
confirmation from that store. -/
theorem C3_error_boundary :
    (∀ (req : Api.ConversationRequest) (store : IdemStore) (now : Nat)
       (oracle : TurnOracle) (e : HttpError) (st : IdemStore),
       process_conversation_v2 req store now oracle = (Except.error e, st) →
       get_agent_spec req.agentType = Option.none) ∧
    (∀ (req : Api.ConversationRequest) (store : IdemStore) (now : Nat)
       (oracle : TurnOracle) (spec : AgentSpec) (msg : String),
       get_agent_spec req.agentType = some spec →
       req.clientAction = Option.none →
       oracle.failure = some msg →
       (∀ k, idemKeyOf req = some k →
         (get_idempotent_response store k now).1 = Option.none) →
       ∃ st, process_conversation_v2 req store now oracle =
           (Except.ok (create_fallback_response req), st) ∧
         (create_fallback_response req).extractedData = some req.slots ∧
         (match get_missing_required_slots spec req.slots with
          | m :: _ =>
            (create_fallback_response req).nextAction = Api.NextAction.ASK_QUESTION ∧
            ∃ s, spec.get_slot_by_name m = some s ∧
              (create_fallback_response req).question =
                planner_to_api_question (some (build_question s)) ∧
              (create_fallback_response req).assistantMessage =
                "I need a bit more information. " ++ s.prompt
          | [] =>
            (create_fallback_response req).nextAction = Api.NextAction.CONFIRM ∧
            (create_fallback_response req).confirmationCard =
              planner_to_api_confirmation_card
                (some (build_confirmation_card spec req.slots)))) := by
  constructor
  · intro req store now oracle e st h
    cases hh : get_agent_spec req.agentType with
    | none => rfl
    | some spec =>
      exfalso
      unfold process_conversation_v2 at h
      cases hkey : idemKeyOf req with
      | none =>
        simp only [hh, hkey] at h
        obtain ⟨r, st2, hra⟩ := process_after_idem_ok req spec store now oracle
        rw [hra] at h
        simp at h
      | some k =>
        rcases hgr : get_idempotent_response store k now with ⟨o, st1⟩
        cases o with
        | some cached =>
          simp only [hh, hkey, hgr] at h
          simp at h
        | none =>
          simp only [hh, hkey, hgr] at h
          obtain ⟨r, st2, hra⟩ := process_after_idem_ok req spec st1 now oracle
          rw [hra] at h
          simp at h
  · intro req store now oracle spec msg hspec hact hfail hmiss
    have hshape := create_fallback_response_shape req spec hspec
    unfold process_conversation_v2
    cases hkey : idemKeyOf req with
    | none =>
      simp only [hspec, hkey]
      rw [process_after_idem_failure req spec store now oracle msg hact hfail]
      exact ⟨store, rfl, hshape.1, hshape.2⟩
    | some k =>
      have hm := hmiss k hkey
      rcases hgr : get_idempotent_response store k now with ⟨o, st1⟩
      rw [hgr] at hm
      simp only at hm
      subst hm
      simp only [hspec, hkey, hgr]
      rw [process_after_idem_failure req spec st1 now oracle msg hact hfail]
      exact ⟨st1, rfl, hshape.1, hshape.2⟩

/-- Concrete request used by the C3 witness. -/
def reqC3 : Api.ConversationRequest :=
  { conversationId := "c3"
    agentType := "STOCK_CHECKER"
    userMessage := "do you have kettles"
    slots := [("retailer_name", Value.str "Kmart")] }

/-- Witness for C3 at a concrete request whose turn raises an unexpected
exception. -/
theorem C3_error_boundary_witness :
    (get_agent_spec reqC3.agentType = some STOCK_CHECKER_SPEC ∧
      reqC3.clientAction = Option.none ∧
      (TurnOracle.mk {} (some "boom")).failure = some "boom") ∧
    (∃ st, process_conversation_v2 reqC3 [] 0 (TurnOracle.mk {} (some "boom")) =
        (Except.ok (create_fallback_response reqC3), st) ∧
      (create_fallback_response reqC3).extractedData = some reqC3.slots ∧
      (match get_missing_required_slots STOCK_CHECKER_SPEC reqC3.slots with
       | m :: _ =>
         (create_fallback_response reqC3).nextAction = Api.NextAction.ASK_QUESTION ∧
         ∃ s, STOCK_CHECKER_SPEC.get_slot_by_name m = some s ∧
           (create_fallback_response reqC3).question =
             planner_to_api_question (some (build_question s)) ∧
           (create_fallback_response reqC3).assistantMessage =
             "I need a bit more information. " ++ s.prompt
       | [] =>
         (create_fallback_response reqC3).nextAction = Api.NextAction.CONFIRM ∧
         (create_fallback_response reqC3).confirmationCard =
           planner_to_api_confirmation_card
             (some (build_confirmation_card STOCK_CHECKER_SPEC reqC3.slots)))) :=
  ⟨⟨rfl, rfl, rfl⟩,
    C3_error_boundary.2 reqC3 [] 0 (TurnOracle.mk {} (some "boom")) STOCK_CHECKER_SPEC
      "boom" rfl rfl rfl (fun _ h => Option.noConfusion h)⟩

-- ===========================================================================
-- C2
-- ===========================================================================

/-- C2: `decide_next_action` answers a CONFIRM client action with COMPLETE and
a REJECT client action with ASK_QUESTION bound to the first missing required
slot (or the generic open question with no bound slot), irrespective of slot
completeness, utterance and current slot; any other client-action string
behaves exactly like an absent client action. -/
theorem C2_client_action_priority (spec : AgentSpec) (slots : SlotStore)
    (user_message : String) (current_question_slot : Option String) :
    (decide_next_action spec slots (some "CONFIRM") user_message current_question_slot =
      { next_action := NextAction.COMPLETE
        assistant_message := "Great! I'll place the call now." }) ∧
    ((decide_next_action spec slots (some "REJECT") user_message
        current_question_slot).next_action = NextAction.ASK_QUESTION ∧
     (decide_next_action spec slots (some "REJECT") user_message
        current_question_slot).question = (get_next_slot spec slots).map build_question) ∧
    (∀ ca : String, ¬ ca = "CONFIRM" → ¬ ca = "REJECT" →
      decide_next_action spec slots (some ca) user_message current_question_slot =
        decide_next_action spec slots Option.none user_message current_question_slot) := by
  refine ⟨?_, ⟨?_, ?_⟩, ?_⟩
  · unfold decide_next_action
    simp
  · unfold decide_next_action
    simp only [reduceCtorEq, Option.some.injEq, String.reduceEq, if_false, if_true]
    cases get_next_slot spec slots <;> rfl
  · unfold decide_next_action
    simp only [reduceCtorEq, Option.some.injEq, String.reduceEq, if_false, if_true]
    cases get_next_slot spec slots <;> rfl
  · intro ca hc hr
    unfold decide_next_action
    rw [if_neg (by simp [hc]), if_neg (by simp [hr]),
      if_neg (by simp : ¬ (Option.none : Option String) = some "CONFIRM"),
      if_neg (by simp : ¬ (Option.none : Option String) = some "REJECT")]

/-- Witness for C2 at a concrete agent, store and client action. -/
theorem C2_client_action_priority_witness :
    (¬ "HELP" = "CONFIRM" ∧ ¬ "HELP" = "REJECT") ∧
    ((decide_next_action SICK_CALLER_SPEC [] (some "CONFIRM") "" Option.none =
      { next_action := NextAction.COMPLETE
        assistant_message := "Great! I'll place the call now." }) ∧
    ((decide_next_action SICK_CALLER_SPEC [] (some "REJECT") ""
        Option.none).next_action = NextAction.ASK_QUESTION ∧
     (decide_next_action SICK_CALLER_SPEC [] (some "REJECT") ""
        Option.none).question = (get_next_slot SICK_CALLER_SPEC []).map build_question) ∧
    (∀ ca : String, ¬ ca = "CONFIRM" → ¬ ca = "REJECT" →
      decide_next_action SICK_CALLER_SPEC [] (some ca) "" Option.none =
        decide_next_action SICK_CALLER_SPEC [] Option.none "" Option.none)) :=
  ⟨by decide, C2_client_action_priority SICK_CALLER_SPEC [] "" Option.none⟩

-- ===========================================================================
-- C4
-- ===========================================================================

/-- C4 counterexample: with a STOCK_CHECKER store whose `quantity` is the
number 0, the planner-path `is_slot_filled` counts the slot as filled, yet
the legacy sanitizer path's `_get_next_missing_slot` reports that very slot
as the next missing one — so the two paths do not share the claimed filled
test and 0 is not uniformly treated as filled. -/
theorem C4_counterexample_zero_quantity :
    is_slot_filled
      [("retailer_name", Value.str "Kmart"), ("product_name", Value.str "kettle"),
       ("quantity", Value.int 0), ("store_location", Value.str "Sydney")]
      "quantity" = true ∧
    get_next_missing_slot "STOCK_CHECKER"
      [("retailer_name", Value.str "Kmart"), ("product_name", Value.str "kettle"),
       ("quantity", Value.int 0), ("store_location", Value.str "Sydney")] =
      some ("quantity", "How many do you need?", "NUMBER") := by
  decide

/-- C4 amended: the planner path's `is_slot_filled` counts a slot as filled
iff its value is present, not None and, for strings, non-empty after trimming
(so 0 and False are filled there); the legacy sanitizer path instead tests
Python truthiness, counting a slot as missing iff it is absent or holds None,
the empty string, 0 or False — in particular 0 is missing on the legacy path
and whitespace-only strings are filled there. -/
theorem C4_amended_filled_semantics :
    (∀ (slots : SlotStore) (name : String),
      is_slot_filled slots name = true ↔
        ∃ v, dictGet slots name = some v ∧ ¬ v = Value.none ∧
          ∀ s, v = Value.str s → ¬ pyStrip s = "") ∧
    (∀ (slots : SlotStore) (f : String),
      legacySlotTruthy slots f = false ↔
        (dictGet slots f = Option.none ∨ dictGet slots f = some Value.none ∨
         dictGet slots f = some (Value.str "") ∨ dictGet slots f = some (Value.int 0) ∨
         dictGet slots f = some (Value.bool false))) ∧
    (∀ (slots : SlotStore) (name : String),
      dictGet slots name = some (Value.int 0) →
        is_slot_filled slots name = true ∧ legacySlotTruthy slots name = false) := by
  refine ⟨?_, ?_, ?_⟩
  · intro slots name
    unfold is_slot_filled
    cases h : dictGet slots name with
    | none => simp
    | some v =>
      cases v with
      | none => simp
      | str s =>
        constructor
        · intro hf
          replace hf : (!(pyStrip s == "")) = true := hf
          refine ⟨Value.str s, rfl, by simp, ?_⟩
          intro s2 hs2 htrim
          cases hs2
          rw [htrim] at hf
          simp at hf
        · rintro ⟨v, hv, _, hstr⟩
          injection hv with hv2
          subst hv2
          show (!(pyStrip s == "")) = true
          have := hstr s rfl
          simpa using this
      | int n => simp
      | bool b => simp
  · intro slots f
    unfold legacySlotTruthy
    cases h : dictGet slots f with
    | none => simp
    | some v =>
      cases v with
      | none => simp [pyTruthy]
      | str s => simp [pyTruthy]
      | int n => simp [pyTruthy]
      | bool b => simp [pyTruthy]
  · intro slots name h
    constructor
    · unfold is_slot_filled
      rw [h]
    · unfold legacySlotTruthy
      rw [h]
      rfl

/-- Witness for C4's amended statement at a concrete store holding 0. -/
theorem C4_amended_filled_semantics_witness :
    dictGet [("quantity", Value.int 0)] "quantity" = some (Value.int 0) ∧
    (is_slot_filled [("quantity", Value.int 0)] "quantity" = true ∧
     legacySlotTruthy [("quantity", Value.int 0)] "quantity" = false) :=
  ⟨by decide,
    C4_amended_filled_semantics.2.2 [("quantity", Value.int 0)] "quantity" (by decide)⟩

-- ===========================================================================
-- C5
-- ===========================================================================

/-- The space-separated whole tokens of a list of characters. -/
def tokenizeAux : List Char → List Char → List String
  | [], acc => if acc.isEmpty then [] else [String.mk acc.reverse]
  | c :: rest, acc =>
    if c = ' ' then
      if acc.isEmpty then tokenizeAux rest []
      else String.mk acc.reverse :: tokenizeAux rest []
    else tokenizeAux rest (c :: acc)

/-- The whole tokens of a string. -/
def strTokens (s : String) : List String := tokenizeAux s.toList []

/-- The YES_NO rule in the specification's words (the claim under test): the
utterance's whole tokens are matched against the two fixed vocabularies, with
the negative vocabulary checked first, so a both-ways match resolves to NO. -/
def yes_no_spec_claim (user_message : String) : Option String :=
  let tokens := strTokens (pyStrip (pyLower user_message))
  if tokens.any (fun t => no_patterns.contains t) then some "NO"
  else if tokens.any (fun t => yes_patterns.contains t) then some "YES"
  else Option.none

/-- C5 counterexample: the utterance "yes no" token-matches both vocabularies,
so under the claim (negative first) it would resolve to NO, but the code's
`extract_yes_no_value` checks the affirmative patterns first and only against
the leading token, returning YES. -/
theorem C5_counterexample_yes_no :
    yes_no_spec_claim "yes no" = some "NO" ∧
    extract_yes_no_value "yes no" = some "YES" := by
  decide

/-- C5 amended: deterministic YES_NO extraction matches only the leading
token of the lowercased, trimmed utterance (the message equals a vocabulary
word or starts with that word plus a space), and the affirmative vocabulary
is checked before the negative one: YES results exactly when the leading
token is affirmative (even if negative words occur later), NO exactly when no
affirmative leading match exists but a negative one does, and no value
otherwise. -/
theorem C5_amended_leading_token :
    ∀ msg : String,
      (extract_yes_no_value msg = some "YES" ↔
        ∃ p ∈ yes_patterns, yesNoPatternMatch (pyStrip (pyLower msg)) p = true) ∧
      (extract_yes_no_value msg = some "NO" ↔
        ((∀ p ∈ yes_patterns, yesNoPatternMatch (pyStrip (pyLower msg)) p = false) ∧
         ∃ p ∈ no_patterns, yesNoPatternMatch (pyStrip (pyLower msg)) p = true)) ∧
      (extract_yes_no_value msg = Option.none ↔
        ∀ p ∈ yes_patterns ++ no_patterns,
          yesNoPatternMatch (pyStrip (pyLower msg)) p = false) := by
  intro msg
  have heq : extract_yes_no_value msg =
      (if yes_patterns.any (fun p => yesNoPatternMatch (pyStrip (pyLower msg)) p) then
        some "YES"
      else if no_patterns.any (fun p => yesNoPatternMatch (pyStrip (pyLower msg)) p) then
        some "NO"
      else Option.none) := rfl
  by_cases hy : yes_patterns.any (fun p => yesNoPatternMatch (pyStrip (pyLower msg)) p) = true
  · have hex : ∃ p ∈ yes_patterns, yesNoPatternMatch (pyStrip (pyLower msg)) p = true := by
      simpa using List.any_eq_true.mp hy
    rw [heq, if_pos hy]
    refine ⟨⟨fun _ => hex, fun _ => rfl⟩, ?_, ?_⟩
    · constructor
      · intro h
        exact absurd h (by simp)
      · rintro ⟨hall, -⟩
        obtain ⟨q, hq, hqm⟩ := hex
        rw [hall q hq] at hqm
        exact absurd hqm (by simp)
    · constructor
      · intro h
        exact absurd h (by simp)
      · intro hall
        obtain ⟨q, hq, hqm⟩ := hex
        rw [hall q (List.mem_append_left _ hq)] at hqm
        exact absurd hqm (by simp)
  · have hyn : ∀ p ∈ yes_patterns, yesNoPatternMatch (pyStrip (pyLower msg)) p = false := by
      intro p hp
      rcases Bool.eq_false_or_eq_true (yesNoPatternMatch (pyStrip (pyLower msg)) p) with h | h
      · exact absurd (List.any_eq_true.mpr ⟨p, hp, h⟩) hy
      · exact h
    rw [heq, if_neg hy]
    by_cases hn : no_patterns.any (fun p => yesNoPatternMatch (pyStrip (pyLower msg)) p) = true
    · have hexn : ∃ p ∈ no_patterns, yesNoPatternMatch (pyStrip (pyLower msg)) p = true := by
        simpa using List.any_eq_true.mp hn
      rw [if_pos hn]
      refine ⟨?_, ⟨fun _ => ⟨hyn, hexn⟩, fun _ => rfl⟩, ?_⟩
      · constructor
        · intro h
          exact absurd h (by simp)
        · rintro ⟨p, hp, hm⟩
          rw [hyn p hp] at hm
          exact absurd hm (by simp)
      · constructor
        · intro h
          exact absurd h (by simp)
        · intro hall
          obtain ⟨q, hq, hqm⟩ := hexn
          rw [hall q (List.mem_append_right _ hq)] at hqm
          exact absurd hqm (by simp)
    · have hnn : ∀ p ∈ no_patterns, yesNoPatternMatch (pyStrip (pyLower msg)) p = false := by
        intro p hp
        rcases Bool.eq_false_or_eq_true (yesNoPatternMatch (pyStrip (pyLower msg)) p) with h | h
        · exact absurd (List.any_eq_true.mpr ⟨p, hp, h⟩) hn
        · exact h
      rw [if_neg hn]
      refine ⟨?_, ?_, ?_⟩
      · constructor
        · intro h
          exact absurd h (by simp)
        · rintro ⟨p, hp, hm⟩
          rw [hyn p hp] at hm
          exact absurd hm (by simp)
      · constructor
        · intro h
          exact absurd h (by simp)
        · rintro ⟨-, p, hp, hm⟩
          rw [hnn p hp] at hm
          exact absurd hm (by simp)
      · refine ⟨fun _ p hp => ?_, fun _ => rfl⟩
        rcases List.mem_append.mp hp with h | h
        · exact hyn p h
        · exact hnn p h

/-- Witness for C5's amended statement at the concrete utterance "yes no". -/
theorem C5_amended_leading_token_witness :
    extract_yes_no_value "yes no" = some "YES" ↔
      ∃ p ∈ yes_patterns, yesNoPatternMatch (pyStrip (pyLower "yes no")) p = true :=
  (C5_amended_leading_token "yes no").1

-- ===========================================================================
-- C6
-- ===========================================================================

/-- C6 counterexample: on the input "12345678" the deterministic PHONE
attempt succeeds, returning the raw input itself, which is not a
country-qualified (plus-prefixed) canonical form and passed no validity
check — so deterministic PHONE extraction does not succeed only on validated
canonical forms. -/
theorem C6_counterexample_raw_eight_digits :
    extract_slot_deterministic (fun _ => Option.none) (fun _ => Option.none) "12345678"
        { name := "employer_phone", required := true, input_type := InputType.PHONE,
          prompt := "What's their phone number?" } =
      (some (Value.str "12345678"), true) ∧
    pyStartsWith "12345678" "+" = false := by
  decide

/-- C6 amended: for a PHONE slot the deterministic attempt returns exactly
`normalize_phone_number`, and that normalization succeeds iff the input
contains at least 8 digit characters: Australian patterns are rewritten to a
+61 form and some 10-plus-digit inputs get a plus prefix, but any other input
with at least 8 digits is returned trimmed as-is with no validity check;
only inputs with fewer than 8 digits fail (and fall through to the assisted
tier). -/
theorem C6_amended_phone_normalization :
    (∀ phone : String,
      (normalize_phone_number phone).isSome = true ↔ 8 ≤ (phoneDigits phone).length) ∧
    (∀ (parseDateFn parseTimeFn : String → Option String) (msg : String)
       (slot : SlotSpec), slot.input_type = InputType.PHONE →
      extract_slot_deterministic parseDateFn parseTimeFn msg slot =
        ((normalize_phone_number msg).map Value.str,
          (normalize_phone_number msg).isSome)) := by
  constructor
  · intro phone
    unfold normalize_phone_number
    dsimp only
    split_ifs <;> simp_all <;> omega
  · intro parseDateFn parseTimeFn msg slot h
    unfold extract_slot_deterministic
    rw [h]
    cases hnp : normalize_phone_number msg <;> rfl

/-- Witness for C6's amended statement at a concrete input and PHONE slot. -/
theorem C6_amended_phone_normalization_witness :
    ((normalize_phone_number "0412345678").isSome = true ↔
      8 ≤ (phoneDigits "0412345678").length) ∧
    ({ name := "employer_phone", required := true, input_type := InputType.PHONE,
       prompt := "What's their phone number?" : SlotSpec }.input_type =
        InputType.PHONE ∧
     extract_slot_deterministic (fun _ => Option.none) (fun _ => Option.none) "0412345678"
        { name := "employer_phone", required := true, input_type := InputType.PHONE,
          prompt := "What's their phone number?" } =
       ((normalize_phone_number "0412345678").map Value.str,
         (normalize_phone_number "0412345678").isSome)) :=
  ⟨C6_amended_phone_normalization.1 "0412345678",
    rfl,
    C6_amended_phone_normalization.2 (fun _ => Option.none) (fun _ => Option.none)
      "0412345678"
      { name := "employer_phone", required := true, input_type := InputType.PHONE,
        prompt := "What's their phone number?" } rfl⟩

-- ===========================================================================
-- C7
-- ===========================================================================

/-- C7: with no terminal client action, when the slot currently being asked
resolves to a PHONE slot and the lowercased utterance contains one of the
fixed lookup keywords as a substring, the planner emits FIND_PLACE carrying
`build_place_search_params`; the query and area come from the agent's
designated lookup slots when those are present in the store and fall back to
the placeholders "business" / "Australia" when absent; and when the current
slot is absent or not of type PHONE, FIND_PLACE is never emitted. -/
theorem C7_find_place_trigger :
    (∀ (spec : AgentSpec) (slots : SlotStore) (msg : String) (n : String) (s : SlotSpec),
      ¬ n = "" → spec.get_slot_by_name n = some s → s.input_type = InputType.PHONE →
      FIND_PLACE_KEYWORDS.any (fun kw => strContainsSub (pyLower msg) kw) = true →
      decide_next_action spec slots Option.none msg (some n) =
        { next_action := NextAction.FIND_PLACE
          place_search_params := some (build_place_search_params spec slots)
          assistant_message := "I'll help you find the number." }) ∧
    (∀ (spec : AgentSpec) (slots : SlotStore) (msg : String)
       (curName : Option String),
      (∀ s, current_slot_spec_of spec curName = some s →
        ¬ s.input_type = InputType.PHONE) →
      ¬ (decide_next_action spec slots Option.none msg curName).next_action =
          NextAction.FIND_PLACE) ∧
    (∀ (spec : AgentSpec) (slots : SlotStore) (q : String) (v : Value),
      spec.place_query_slot = some q → ¬ q = "" → dictGet slots q = some v →
      (build_place_search_params spec slots).query = pyStr v) ∧
    (∀ (spec : AgentSpec) (slots : SlotStore) (q : String),
      spec.place_query_slot = some q → dictContains slots q = false →
      (build_place_search_params spec slots).query = "business") ∧
    (∀ (spec : AgentSpec) (slots : SlotStore) (a : String) (v : Value),
      spec.place_area_slot = some a → ¬ a = "" → dictGet slots a = some v →
      (build_place_search_params spec slots).area = pyStr v) ∧
    (∀ (spec : AgentSpec) (slots : SlotStore) (a : String),
      spec.place_area_slot = some a → dictContains slots a = false →
      (build_place_search_params spec slots).area = "Australia") := by
  refine ⟨?_, ?_, ?_, ?_, ?_, ?_⟩
  · intro spec slots msg n s hne hslot hPH hkw
    have hres : current_slot_spec_of spec (some n) = some s := by
      show (if n = "" then Option.none else spec.get_slot_by_name n) = some s
      rw [if_neg hne, hslot]
    have htrig :
        should_trigger_find_place msg (current_slot_spec_of spec (some n)) = true := by
      rw [hres]
      show (if s.input_type ≠ InputType.PHONE then false
        else FIND_PLACE_KEYWORDS.any fun kw => strContainsSub (pyLower msg) kw) = true
      rw [if_neg (by simp [hPH])]
      exact hkw
    unfold decide_next_action
    simp only [reduceCtorEq, Option.some.injEq, String.reduceEq, if_false, htrig, if_true]
  · intro spec slots msg curName hnot
    have htrig :
        should_trigger_find_place msg (current_slot_spec_of spec curName) = false := by
      cases hres : current_slot_spec_of spec curName with
      | none => rfl
      | some s =>
        show (if s.input_type ≠ InputType.PHONE then false
          else FIND_PLACE_KEYWORDS.any fun kw => strContainsSub (pyLower msg) kw) = false
        rw [if_pos (hnot s hres)]
    unfold decide_next_action
    simp only [reduceCtorEq, Option.some.injEq, String.reduceEq, if_false, htrig,
      Bool.false_eq_true]
    cases get_next_slot spec slots <;> simp
  · intro spec slots q v hq hne hv
    unfold build_place_search_params
    simp [hq, hne, hv]
  · intro spec slots q hq hcont
    have hnone : dictGet slots q = Option.none := by
      rw [dictContains_eq_isSome_dictGet] at hcont
      cases h : dictGet slots q with
      | none => rfl
      | some v =>
        rw [h] at hcont
        simp at hcont
    unfold build_place_search_params
    by_cases hne : q = "" <;> simp [hq, hne, hnone, pyStr]
  · intro spec slots a v ha hne hv
    unfold build_place_search_params
    simp [ha, hne, hv]
  · intro spec slots a ha hcont
    have hnone : dictGet slots a = Option.none := by
      rw [dictContains_eq_isSome_dictGet] at hcont
      cases h : dictGet slots a with
      | none => rfl
      | some v =>
        rw [h] at hcont
        simp at hcont
    unfold build_place_search_params
    by_cases hne : a = "" <;> simp [ha, hne, hnone, pyStr]

/-- Witness for C7 at a concrete STOCK_CHECKER turn asking for a phone
number. -/
theorem C7_find_place_trigger_witness :
    (¬ "employer_phone" = "" ∧
      SICK_CALLER_SPEC.get_slot_by_name "employer_phone" =
        some { name := "employer_phone", required := true,
               input_type := InputType.PHONE, prompt := "What's their phone number?" } ∧
      FIND_PLACE_KEYWORDS.any
        (fun kw => strContainsSub (pyLower "I don't know the number") kw) = true) ∧
    decide_next_action SICK_CALLER_SPEC [] Option.none "I don't know the number"
        (some "employer_phone") =
      { next_action := NextAction.FIND_PLACE
        place_search_params := some (build_place_search_params SICK_CALLER_SPEC [])
        assistant_message := "I'll help you find the number." } :=
  ⟨⟨by decide, by decide, by decide⟩,
    C7_find_place_trigger.1 SICK_CALLER_SPEC [] "I don't know the number"
      "employer_phone"
      { name := "employer_phone", required := true, input_type := InputType.PHONE,
        prompt := "What's their phone number?" }
      (by decide) (by decide) rfl (by decide)⟩

-- ===========================================================================
-- C8
-- ===========================================================================

/-- C8: when a legacy response carries action CONFIRM but no confirmation
card, the sanitizer downgrades the action to ASK_QUESTION and generates the
question from the first missing required slot of the merged store (the
caller's slots updated with the response's extracted data, extracted values
winning), and the returned slot store is that merged store — never the stale
pre-turn one. -/
theorem C8_sanitizer_confirm_downgrade
    (response : Api.ConversationResponse) (agent_type : String) (slots : SlotStore)
    (hconf : response.nextAction = Api.NextAction.CONFIRM)
    (hcard : response.confirmationCard = Option.none) :
    (sanitize_conversation_response response agent_type slots).nextAction =
      Api.NextAction.ASK_QUESTION ∧
    (∀ t, get_next_missing_slot agent_type
        (pyDictMerge slots (response.extractedData.getD [])) = some t →
      (sanitize_conversation_response response agent_type slots).question =
        some (mkLegacyQuestion t)) ∧
    (sanitize_conversation_response response agent_type slots).extractedData =
      some (pyDictMerge slots (response.extractedData.getD [])) := by
  unfold sanitize_conversation_response
  simp only [hconf, hcard]
  cases ht : get_next_missing_slot agent_type
      (pyDictMerge slots (response.extractedData.getD [])) with
  | some t =>
    simp only [ht]
    refine ⟨?_, ?_, ?_⟩
    · first | rfl | trivial
    · intro t2 ht2
      injection ht2 with h
      subst h
      rfl
    · first | rfl | trivial
  | none =>
    simp only [ht]
    refine ⟨?_, ?_, ?_⟩
    · first | rfl | trivial
    · intro t2 ht2
      cases ht2
    · first | rfl | trivial

/-- Concrete malformed legacy response used by the C8 witness. -/
def respC8 : Api.ConversationResponse :=
  { assistantMessage := "All set"
    nextAction := Api.NextAction.CONFIRM
    extractedData := some [("employer_name", Value.str "Bunnings")]
    aiCallMade := true
    aiModel := "gpt-4o-mini" }

/-- Witness for C8 at a concrete CONFIRM response with no card. -/
theorem C8_sanitizer_confirm_downgrade_witness :
    (respC8.nextAction = Api.NextAction.CONFIRM ∧
      respC8.confirmationCard = Option.none) ∧
    ((sanitize_conversation_response respC8 "SICK_CALLER"
        [("caller_name", Value.str "Robin")]).nextAction =
      Api.NextAction.ASK_QUESTION ∧
    (∀ t, get_next_missing_slot "SICK_CALLER"
        (pyDictMerge [("caller_name", Value.str "Robin")]
          (respC8.extractedData.getD [])) = some t →
      (sanitize_conversation_response respC8 "SICK_CALLER"
          [("caller_name", Value.str "Robin")]).question =
        some (mkLegacyQuestion t)) ∧
    (sanitize_conversation_response respC8 "SICK_CALLER"
        [("caller_name", Value.str "Robin")]).extractedData =
      some (pyDictMerge [("caller_name", Value.str "Robin")]
        (respC8.extractedData.getD []))) :=
  ⟨⟨rfl, rfl⟩,
    C8_sanitizer_confirm_downgrade respC8 "SICK_CALLER"
      [("caller_name", Value.str "Robin")] rfl rfl⟩

-- ===========================================================================
-- C9
-- ===========================================================================

theorem find?_append_key (l : IdemStore) (x : String × Api.ConversationResponse × Nat)
    (k : String) (hx : x.1 = k) (hl : ∀ e ∈ l, ¬ e.1 = k) :
    (l ++ [x]).find? (fun e => e.1 = k) = some x := by
  rw [List.find?_append]
  have h1 : l.find? (fun e => e.1 = k) = Option.none := by
    rw [List.find?_eq_none]
    intro e he
    simpa using hl e he
  rw [h1]
  simp [hx]

theorem dictGetIdem_store_idempotent (store : IdemStore) (k : String)
    (resp : Api.ConversationResponse) (now : Nat) :
    dictGetIdem (store_idempotent_response store k resp now) k = some (resp, now) := by
  unfold store_idempotent_response dictGetIdem
  have hl : ∀ e ∈ store.filter (fun e => !(e.1 = k)), ¬ e.1 = k := by
    intro e he
    have := List.of_mem_filter he
    simpa using this
  by_cases hlen :
      (store.filter (fun e => !(e.1 = k)) ++ [(k, resp, now)]).length > 1000
  · rw [if_pos hlen, List.filter_append]
    have hx : ((([(k, resp, now)] : IdemStore).filter
        (fun e => !(e.2.2 < now - IDEMPOTENCY_TTL)))) = [(k, resp, now)] := by
      have : ¬ now < now - IDEMPOTENCY_TTL := by omega
      simp [List.filter_cons, this]
    rw [hx, find?_append_key _ _ k rfl
      (fun e he => hl e (List.mem_of_mem_filter he))]
    rfl
  · rw [if_neg hlen, find?_append_key _ _ k rfl hl]
    rfl

theorem process_after_idem_stores (req : Api.ConversationRequest) (spec : AgentSpec)
    (store : IdemStore) (now : Nat) (oracle : TurnOracle)
    (hfail : oracle.failure = Option.none) :
    ∃ r, process_after_idem req spec store now oracle =
      (Except.ok r,
        match idemKeyOf req with
        | some key => store_idempotent_response store key r now
        | Option.none => store) := by
  unfold process_after_idem
  rcases req.clientAction with _ | ca
  · simp only [hfail]
    exact ⟨_, rfl⟩
  · cases ca
    · exact ⟨_, rfl⟩
    · exact ⟨_, rfl⟩

/-- C9: when two turns carry the same (non-empty) idempotency token, the
first turn completes without failure on a fresh token, and the second turn
arrives while the cached entry is within the 5-minute TTL, the second turn
returns the first turn's response verbatim and leaves the store untouched —
for any second request (different utterance, slots, agent or client action)
and any second-turn extraction outcome, since extraction and planning are
not re-run. -/
theorem C9_idempotent_replay
    (req1 req2 : Api.ConversationRequest) (store0 : IdemStore) (t1 t2 : Nat)
    (o1 o2 : TurnOracle) (k : String) (spec1 spec2 : AgentSpec)
    (hk1 : req1.idempotencyKey = some k) (hk2 : req2.idempotencyKey = some k)
    (hkne : ¬ k = "")
    (hspec1 : get_agent_spec req1.agentType = some spec1)
    (hspec2 : get_agent_spec req2.agentType = some spec2)
    (hfresh : dictGetIdem store0 k = Option.none)
    (hfail1 : o1.failure = Option.none)
    (httl : t2 - t1 < IDEMPOTENCY_TTL) :
    ∃ resp1 store1,
      process_conversation_v2 req1 store0 t1 o1 = (Except.ok resp1, store1) ∧
      process_conversation_v2 req2 store1 t2 o2 = (Except.ok resp1, store1) := by
  have hkey1 : idemKeyOf req1 = some k := by
    simp only [idemKeyOf, hk1]
    rw [if_neg hkne]
  have hkey2 : idemKeyOf req2 = some k := by
    simp only [idemKeyOf, hk2]
    rw [if_neg hkne]
  obtain ⟨r1, hr1⟩ := process_after_idem_stores req1 spec1 store0 t1 o1 hfail1
  rw [hkey1] at hr1
  have hg1 : get_idempotent_response store0 k t1 = (Option.none, store0) := by
    unfold get_idempotent_response
    rw [hfresh]
  have hlook := dictGetIdem_store_idempotent store0 k r1 t1
  have hg2 : get_idempotent_response (store_idempotent_response store0 k r1 t1) k t2 =
      (some r1, store_idempotent_response store0 k r1 t1) := by
    simp only [get_idempotent_response, hlook]
    rw [if_pos httl]
  refine ⟨r1, store_idempotent_response store0 k r1 t1, ?_, ?_⟩
  · unfold process_conversation_v2
    simp only [hspec1, hkey1, hg1]
    exact hr1
  · unfold process_conversation_v2
    simp only [hspec2, hkey2, hg2]

/-- Concrete first request of the C9 witness (a confirm turn with a token). -/
def reqC9a : Api.ConversationRequest :=
  { conversationId := "c9"
    agentType := "SICK_CALLER"
    userMessage := "yes"
    slots := [("employer_name", Value.str "Bunnings")]
    clientAction := some Api.ClientAction.CONFIRM
    idempotencyKey := some "tok-1" }

/-- Concrete second request of the C9 witness: same token, different
utterance, slots and agent. -/
def reqC9b : Api.ConversationRequest :=
  { conversationId := "c9"
    agentType := "STOCK_CHECKER"
    userMessage := "something completely different"
    slots := []
    idempotencyKey := some "tok-1" }

/-- Witness for C9 at two concrete same-token turns inside the TTL. -/
theorem C9_idempotent_replay_witness :
    (reqC9a.idempotencyKey = some "tok-1" ∧ reqC9b.idempotencyKey = some "tok-1" ∧
      ¬ "tok-1" = "" ∧ dictGetIdem [] "tok-1" = Option.none ∧
      (TurnOracle.mk {} Option.none).failure = Option.none ∧
      (100 : Nat) - 0 < IDEMPOTENCY_TTL) ∧
    (∃ resp1 store1,
      process_conversation_v2 reqC9a [] 0 (TurnOracle.mk {} Option.none) =
        (Except.ok resp1, store1) ∧
      process_conversation_v2 reqC9b store1 100 (TurnOracle.mk {} Option.none) =
        (Except.ok resp1, store1)) :=
  ⟨⟨rfl, rfl, by decide, rfl, rfl, by decide⟩,
    C9_idempotent_replay reqC9a reqC9b [] 0 100 (TurnOracle.mk {} Option.none)
      (TurnOracle.mk {} Option.none) "tok-1" SICK_CALLER_SPEC STOCK_CHECKER_SPEC
      rfl rfl (by decide) rfl rfl rfl rfl (by decide)⟩

-- ===========================================================================
-- C10
-- ===========================================================================

/-- C10: a slot whose stored value is the boolean False counts as filled for
the planner's `is_slot_filled`, and consequently `get_next_slot` never picks
a slot holding False — a required YES_NO slot answered False is not re-asked. -/
theorem C10_false_counts_as_filled :
    (∀ (slots : SlotStore) (name : String),
      dictGet slots name = some (Value.bool false) →
        is_slot_filled slots name = true) ∧
    (∀ (spec : AgentSpec) (slots : SlotStore) (s : SlotSpec),
      get_next_slot spec slots = some s →
        ¬ dictGet slots s.name = some (Value.bool false)) := by
  have hfilled : ∀ (slots : SlotStore) (name : String),
      dictGet slots name = some (Value.bool false) →
        is_slot_filled slots name = true := by
    intro slots name h
    unfold is_slot_filled
    rw [h]
  refine ⟨hfilled, ?_⟩
  intro spec slots s hs hval
  have hp := List.find?_some hs
  rw [Bool.and_eq_true] at hp
  have hnot := hp.2
  rw [hfilled slots s.name hval] at hnot
  simp at hnot

/-- Witness for C10 at a concrete store holding an explicit False. -/
theorem C10_false_counts_as_filled_witness :
    dictGet [("share_contact", Value.bool false)] "share_contact" =
      some (Value.bool false) ∧
    is_slot_filled [("share_contact", Value.bool false)] "share_contact" = true :=
  ⟨by decide,
    C10_false_counts_as_filled.1 [("share_contact", Value.bool false)]
      "share_contact" (by decide)⟩
